import Mathlib

/-!
Shallow embedding of the statistics/plotting pipeline in
src/ush/timeseries.py (function plot_time_series), together with the
pure fragments that the later parts of that function compute (reference
line detection, confidence-interval index restriction, sample-count
labels, and the output-file naming logic).

One dataframe row carries one observation record; the dataframe is a
list of rows.  Helper functions imported by timeseries.py from
plot_util (filter_by_lead, filter_by_width, process_thresh,
process_models, equalize_samples, process_stats, get_pivot_tables) are
not part of this repository's src/ tree; each is modelled from the
spec, as its doc comment states.  Everything else is translated
directly from src/ush/timeseries.py; the comments cite the source
lines.
-/

namespace TS

/-- One observation record: one row per (model, date, level, lead,
threshold) with a statistic payload.  `date` and `hour` are the date and
hour-of-day of the datetime column named by `date_type` (VALID or INIT);
`WIDTH` is the interpolation width (number of interpolation points). -/
structure Row where
  MODEL : String
  FCST_LEV : String
  FCST_VAR : String
  FCST_THRESH_VALUE : Rat
  LEAD : Nat
  WIDTH : Nat
  date : Nat
  hour : Nat
  stat : Rat
deriving Repr, DecidableEq

abbrev DataFrame := List Row

/-- The arguments of plot_time_series (src/ush/timeseries.py lines
57-80) that the embedded pipeline reads.  Arguments only used by the
rendering/saving fragment (save_dir, eval_period, ...) are modelled with
that fragment (`SaveInputs`) because line 181 raises before they are
read. -/
structure Args where
  df : DataFrame
  model_list : List String
  level : String
  flead : List Nat
  thresh : List Rat
  metric1_name : String
  metric2_name : Option String
  date_hours : List Nat
  date_type : String
  confidence_intervals : Bool
  interp_pts : List Nat
  sample_equalization : Bool
deriving Repr, DecidableEq

/-- Python exceptions that the embedded code can raise. -/
inductive PyErr
  | unboundLocal (name : String)
deriving Repr, DecidableEq

/-- How a call of plot_time_series ends: an early `return None`, an
uncaught exception, or a saved image. -/
inductive Outcome
  | returnedNone
  | raised (e : PyErr)
  | saved (path : String)
deriving Repr, DecidableEq

/-- The pipeline steps of plot_time_series, in the role the spec gives
them; used to record the order in which the steps execute. -/
inductive Stage
  | levelFilter
  | leadFilter
  | dateHoursPrune
  | widthFilter
  | threshFilter
  | modelFilter
  | equalize
  | aggregate
  | pivot
deriving Repr, DecidableEq

/-- The observable result of one call of plot_time_series: its outcome,
the stages that executed in order, the warning messages logged, and the
values of the locals date_hours, df and sample_equalization at the
aggregation point (line 155), when reached. -/
structure RunResult where
  outcome : Outcome
  trace : List Stage
  warnings : List String
  dateHoursFinal : Option (List Nat) := none
  dfFinal : Option DataFrame := none
  seFinal : Option Bool := none
  aggregated : Option (List ((String × Nat) × Rat)) := none
deriving Repr, DecidableEq

/-- The warning logged by every empty-dataframe guard (src lines 86, 99,
117, 136, 149). -/
def emptyDfWarning : String := "Empty Dataframe. Continuing onto next plot..."

/-- Python str.upper(), character by character. -/
def strUpper (s : String) : String := String.mk (s.data.map Char.toUpper)

/-- Python str.lower(), character by character. -/
def strLower (s : String) : String := String.mk (s.data.map Char.toLower)

/-- Modelled from the spec: plot_util.filter_by_lead is not under src/.
Per the spec's filter chain it keeps the rows whose forecast lead time
is among the requested leads; the two strings it also returns describe
the lead range for titles and file names. -/
def filter_by_lead (df : DataFrame) (flead : List Nat) :
    DataFrame × String × String :=
  (df.filter (fun r => flead.contains r.LEAD), "", "")

/-- Modelled from the spec: plot_util.filter_by_width is not under src/.
Per the spec's filter chain it keeps the rows whose interpolation width
is among the requested interpolation points; an empty request leaves the
dataframe unchanged. -/
def filter_by_width (df : DataFrame) (interp_pts : List Nat) :
    DataFrame × String × String :=
  (if interp_pts = [] then df
   else df.filter (fun r => interp_pts.contains r.WIDTH), "", "")

/-- Modelled from the spec: plot_util.process_thresh is not under src/.
Per the spec's filter chain it keeps the rows whose threshold value is
among the requested thresholds; an empty request leaves the dataframe
unchanged.  It also returns the threshold operator strings and the
requested threshold values. -/
def process_thresh (df : DataFrame) (thresh : List Rat) :
    DataFrame × String × String × List Rat :=
  (if thresh = [] then df
   else df.filter (fun r => thresh.contains r.FCST_THRESH_VALUE),
   ">=", "ge", thresh)

/-- Modelled from the spec: plot_util.process_models is not under src/.
Per the source comment at src/ush/timeseries.py line 132 it removes from
model_list the models that do not occur in the dataframe, and it keeps
only the rows whose model was requested. -/
def process_models (df : DataFrame) (model_list : List String) :
    DataFrame × List String :=
  (df.filter (fun r => model_list.contains r.MODEL),
   model_list.filter (fun m => df.any (fun r => r.MODEL == m)))

/-- Modelled from the spec: plot_util.equalize_samples is not under
src/.  The spec's glossary describes sample equalization as restricting
the compared groups to a common set of events/samples: a row is kept
when every model present in the dataframe has a row at the same date and
hour.  The flag reports success. -/
def equalize_samples (df : DataFrame) (_group_by : List String) :
    DataFrame × Bool :=
  let models := (df.map (fun r => r.MODEL)).dedup
  (df.filter (fun r =>
      models.all (fun m =>
        df.any (fun r2 => r2.MODEL == m && r2.date == r.date && r2.hour == r.hour))),
   true)

/-- The dataframe after the level filter, src line 96:
df[df['FCST_LEV'].astype(str).eq(str(level))]. -/
def dfAfterLevel (a : Args) : DataFrame :=
  a.df.filter (fun r => r.FCST_LEV == a.level)

/-- The dataframe after the forecast-lead filter, src lines 105-107. -/
def dfAfterLead (a : Args) : DataFrame :=
  (filter_by_lead (dfAfterLevel a) a.flead).1

/-- Src lines 109-114: date_hours is restricted to the valid/init hours
that occur in the (lead-filtered) dataframe; the dataframe itself is not
touched by this step. -/
def dateHoursUsed (a : Args) : List Nat :=
  a.date_hours.filter (fun x => ((dfAfterLead a).map (fun r => r.hour)).contains x)

/-- The dataframe after the interpolation-width filter, src lines 122-125. -/
def dfAfterWidth (a : Args) : DataFrame :=
  (filter_by_width (dfAfterLead a) a.interp_pts).1

/-- The dataframe after threshold processing, src lines 127-130. -/
def dfAfterThresh (a : Args) : DataFrame :=
  (process_thresh (dfAfterWidth a) a.thresh).1

/-- The dataframe after model pruning, src line 133. -/
def dfAfterModels (a : Args) : DataFrame :=
  (process_models (dfAfterThresh a) a.model_list).1

/-- The pandas groupby keys for group_by = ['MODEL', date_type.upper()]
(src lines 143, 155): the distinct (model, date) pairs of the dataframe. -/
def groupKeys (df : DataFrame) : List (String × Nat) :=
  (df.map (fun r => (r.MODEL, r.date))).dedup

/-- The rows of one (model, date) group. -/
def groupRows (df : DataFrame) (k : String × Nat) : DataFrame :=
  df.filter (fun r => r.MODEL == k.1 && r.date == k.2)

/-- Arithmetic mean of a list of rationals (empty list gives 0, mirroring
a reduction over an empty group). -/
def ratMean (xs : List Rat) : Rat := xs.sum / (xs.length : Rat)

/-- Modelled from the spec: plot_util.process_stats is not under src/.
Per the spec it aggregates each (model, date) group of unit statistics
into a single summary metric value; the group mean of the unit statistic
stands in for the metric computation. -/
def process_stats (df : DataFrame) : List ((String × Nat) × Rat) :=
  (groupKeys df).map (fun k => (k, ratMean ((groupRows df k).map (fun r => r.stat))))

/-- A pivot table: rows indexed by date, columns indexed by model, cells
keyed by (date, model). -/
structure PivotTable where
  index : List Nat
  columns : List String
  cells : List ((Nat × String) × Rat)
deriving Repr, DecidableEq

/-- Cell lookup: the value at (date, model), if present. -/
def PivotTable.cell (p : PivotTable) (dt : Nat) (m : String) : Option Rat :=
  (p.cells.find? (fun c => c.1 == (dt, m))).map (fun c => c.2)

/-- A model's series: the column named by the model, read down the date
index. -/
def PivotTable.colVals (p : PivotTable) (m : String) : List (Option Rat) :=
  p.index.map (fun dt => p.cell dt m)

/-- Modelled from the spec: plot_util.get_pivot_tables is not under
src/.  Per the spec's data model it reshapes the aggregated statistics
into a table whose rows are indexed by date, whose columns are indexed
by model, and whose cells hold the aggregated metric value for that
(date, model) pair. -/
def get_pivot_tables (agg : List ((String × Nat) × Rat)) : PivotTable :=
  { index := (agg.map (fun e => e.1.2)).dedup
    columns := (agg.map (fun e => e.1.1)).dedup
    cells := agg.map (fun e => ((e.1.2, e.1.1), e.2)) }

/-- Src lines 154-186 as reached after the filter chain: the grouped
aggregation (lines 155-168) and the pivoting (lines 171-178) happen,
and then line 181 evaluates the arguments of reindex_pivot_tables.
Among them is the local pivot_counts, whose first assignment is at line
186, so the call raises UnboundLocalError before any reindexing,
plotting or saving can happen. -/
def continueAgg (a : Args) (df : DataFrame) (se : Bool) (tr : List Stage) :
    RunResult :=
  { outcome := .raised (.unboundLocal "pivot_counts")
    trace := tr ++ [.aggregate, .pivot]
    warnings := []
    dateHoursFinal := some (dateHoursUsed a)
    dfFinal := some df
    seFinal := some se
    aggregated := some (process_stats df) }

/-- plot_time_series, src lines 57-186 (the function cannot get past
line 181, see `continueAgg`).  `equalize_fn` stands for
plot_util.equalize_samples, which is not under src/; concrete runs
instantiate it with the spec-modelled `equalize_samples`. -/
def plot_time_series (a : Args)
    (equalize_fn : DataFrame → List String → DataFrame × Bool) : RunResult :=
  -- line 85: empty-dataframe guard on entry
  if a.df = [] then
    { outcome := .returnedNone, trace := [], warnings := [emptyDfWarning] }
  -- line 96 filter by level; line 98 guard
  else if dfAfterLevel a = [] then
    { outcome := .returnedNone, trace := [.levelFilter],
      warnings := [emptyDfWarning] }
  -- lines 105-120: lead filter, date-hours restriction, guard
  else if dfAfterLead a = [] then
    { outcome := .returnedNone
      trace := [.levelFilter, .leadFilter, .dateHoursPrune]
      warnings := [emptyDfWarning]
      dateHoursFinal := some (dateHoursUsed a) }
  -- lines 122-139: width filter, threshold processing, model pruning, guard
  else if dfAfterModels a = [] then
    { outcome := .returnedNone
      trace := [.levelFilter, .leadFilter, .dateHoursPrune, .widthFilter,
                .threshFilter, .modelFilter]
      warnings := [emptyDfWarning]
      dateHoursFinal := some (dateHoursUsed a) }
  -- lines 141-152: sample equalization; on failure the flag is cleared
  -- (line 147) and execution continues; an emptied dataframe returns None
  else if a.sample_equalization then
    if (equalize_fn (dfAfterModels a) ["MODEL", strUpper a.date_type]).1 = [] then
      { outcome := .returnedNone
        trace := [.levelFilter, .leadFilter, .dateHoursPrune, .widthFilter,
                  .threshFilter, .modelFilter, .equalize]
        warnings := [emptyDfWarning]
        dateHoursFinal := some (dateHoursUsed a) }
    else
      continueAgg a (equalize_fn (dfAfterModels a) ["MODEL", strUpper a.date_type]).1
        (equalize_fn (dfAfterModels a) ["MODEL", strUpper a.date_type]).2
        [.levelFilter, .leadFilter, .dateHoursPrune, .widthFilter,
         .threshFilter, .modelFilter, .equalize]
  else
    continueAgg a (dfAfterModels a) false
      [.levelFilter, .leadFilter, .dateHoursPrune, .widthFilter,
       .threshFilter, .modelFilter]

/-! ### Reference-line detection (src lines 262-281) and the metric1
plotting loop (src lines 339-347, 407-425).

The pivot values feeding this fragment are viewed as a full matrix: one
row per date, one entry per model (pivot_reference1 = pivot_metric1,
line 266).  reference1 = pivot_reference1.mean(axis=1) is the
across-model mean at each date. -/

/-- Src line 263: ref_metrics = ['OBAR']. -/
def ref_metrics : List String := ["OBAR"]

/-- Across-model mean of one date's row of pivot values
(pandas .mean(axis=1)). -/
def rowMeanQ (row : List Rat) : Rat := row.sum / (row.length : Rat)

/-- reference1 (src line 267): the across-model mean at every date. -/
def referenceSeries (tbl : List (List Rat)) : List Rat := tbl.map rowMeanQ

/-- Src line 271: np.any((pivot_reference1.T/reference1).T == 1.) —
true when some cell divided by its date's across-model mean equals 1.
Rational division returns 0 on a zero divisor, and numpy returns
NaN/inf there; in both semantics the comparison with 1 is false, so the
boolean agrees with the source. -/
def anyCellEqRowMean (tbl : List (List Rat)) : Bool :=
  tbl.any (fun row => row.any (fun c => decide (c / rowMeanQ row = 1)))

/-- plot_reference[0] as it stands after src lines 264-281: set when
metric1_name upper-cases into ref_metrics (line 264) and cleared when no
cell equals its date's across-model mean (lines 271-281). -/
def plotReference1 (metric1_name : String) (tbl : List (List Rat)) : Bool :=
  decide (strUpper metric1_name ∈ ref_metrics) && anyCellEqRowMean tbl

/-- A metric1 line plotted by the loop: either the single reference line
or one model's own series. -/
inductive LineCmd
  | refLine (ys : List Rat)
  | modelLine (m : String) (ys : List Rat)
deriving Repr, DecidableEq

/-- The metric1 plotting loop, src lines 339-347 and 407-425, restricted
to the models present as pivot columns (the loop `continue`s the absent
ones at line 346).  When the reference flag is on, the reference series
is plotted once, guarded by the plotted_reference[0] flag (lines
407-417); otherwise each model's own column is plotted (lines 419-425). -/
def metric1LoopAux (refOn : Bool) (tbl : List (List Rat))
    (col : String → List Rat) : List String → Bool → List LineCmd
  | [], _plotted => []
  | m :: ms, plotted =>
    if refOn then
      if plotted then metric1LoopAux refOn tbl col ms plotted
      else LineCmd.refLine (referenceSeries tbl) :: metric1LoopAux refOn tbl col ms true
    else LineCmd.modelLine m (col m) :: metric1LoopAux refOn tbl col ms plotted

/-- Entry point of the loop fragment: plotted_reference[0] starts False
(src line 301). -/
def metric1LineCmds (presentModels : List String) (refOn : Bool)
    (tbl : List (List Rat)) (col : String → List Rat) : List LineCmd :=
  metric1LoopAux refOn tbl col presentModels false

/-! ### Confidence-interval index restriction (src lines 219-244) and
the per-model draw commands for metric1 (src lines 419-425, 464-471). -/

/-- A date is kept iff it lies in the index of the metric pivot and of
both confidence-bound pivots (src lines 220-227: set intersection of the
three indexes). -/
def commonKeep (pm cil ciu : PivotTable) (d : Nat) : Bool :=
  decide (d ∈ pm.index) && decide (d ∈ cil.index) && decide (d ∈ ciu.index)

/-- Row restriction of a pivot table by an index predicate
(pandas p[p.index.isin(common)]): keeps the original row order and the
columns. -/
def restrictIndex (p : PivotTable) (keep : Nat → Bool) : PivotTable :=
  { index := p.index.filter keep
    columns := p.columns
    cells := p.cells.filter (fun c => keep c.1.1) }

/-- One drawing command of the metric1 part of the loop: a line plot or
an error-bar call, with the x-values it uses. -/
inductive DrawCmd
  | line (m : String) (xs : List Nat)
  | errbar (m : String) (xs : List Nat)
deriving Repr, DecidableEq

/-- The x-values a draw command plots at. -/
def DrawCmd.xs : DrawCmd → List Nat
  | .line _ xs => xs
  | .errbar _ xs => xs

/-- Metric1 drawing, src lines 219-232 and 339-471 (reference handling
aside, which `metric1LineCmds` embeds): when confidence_intervals is on
the three pivots are first restricted to their common date indices
(lines 220-230) and x_vals1 is the restricted index (line 245); the loop
then plots each present model's line (line 419) and, iff
confidence_intervals, its error bars (line 464). -/
def drawMetric1 (cv : Bool) (model_list : List String)
    (pm cil ciu : PivotTable) : List DrawCmd :=
  let pm2 := if cv then restrictIndex pm (commonKeep pm cil ciu) else pm
  let xs := pm2.index
  (model_list.filter (fun m => pm2.columns.contains m)).flatMap
    (fun m => DrawCmd.line m xs :: (if cv then [DrawCmd.errbar m xs] else []))

/-! ### Sample-count labels (src lines 570-586). -/

/-- Src lines 570-581: only under the (possibly cleared)
sample_equalization flag are the per-date mean counts annotated above
the axis, one label per x-value. -/
def sampleCountLabels (se : Bool) (counts : List Rat) (xvals : List Nat) :
    List (Nat × Rat) :=
  if se then xvals.zip counts else []

/-! ### File naming and persistence (src lines 677-735).

This fragment is unreachable in the source (line 181 raises first, and
line 519 references the undefined name xvals1), but it embeds the
naming and persistence logic as written, as a function of the strings
in scope at line 677.  os.path.join is modelled as joining with '/'. -/

/-- The values in scope at src line 677 that the saving code reads.
Strings produced upstream by plot_util helpers (frange_save_string,
thresholds_save_phrase, interp_pts_save_string, var_savename,
level_savename, domain_save_string) are carried as inputs. -/
structure SaveInputs where
  save_dir : String
  restart_dir : String
  save_header : String
  plot_group : String
  eval_period : String
  date_start_savename : String
  date_end_savename : String
  date_type : String
  date_hours : List Nat
  frange_save_string : String
  metric1_name : String
  metric2_name : Option String
  thresh : List String
  thresholds_save_phrase : String
  interp_pts : List String
  interp_pts_save_string : String
  var_savename : String
  level_savename : String
  domain_save_string : String
deriving Repr, DecidableEq

/-- f-string {date_hour:02d} followed by Z (src lines 681, 686). -/
def twoDigitZ (h : Nat) : String :=
  (if h < 10 then "0" ++ toString h else toString h) ++ "Z"

/-- Src lines 679-687: up to eight hours are joined with underscores,
more are abbreviated to first-last (the else branch only runs on a list
of length at least nine, hence nonempty; headD/getLastD defaults are
never used there). -/
def date_hours_savename (dhs : List Nat) : String :=
  if dhs.length ≤ 8 then "_".intercalate (dhs.map twoDigitZ)
  else "-".intercalate [twoDigitZ (dhs.headD 0), twoDigitZ (dhs.getLastD 0)]

/-- Src lines 690-693: start-end dates when eval_period is TEST
(case-insensitively), the eval_period string otherwise. -/
def time_period_savename (s : SaveInputs) : String :=
  if strUpper s.eval_period = "TEST" then
    s.date_start_savename ++ "-" ++ s.date_end_savename
  else s.eval_period

/-- Src lines 695-701: plot_info joins the non-empty items. -/
def plot_info (s : SaveInputs) : String :=
  "_".intercalate
    (["timeseries",
      strLower s.date_type ++ strLower (date_hours_savename s.date_hours),
      strLower s.frange_save_string].filter (fun x => x ≠ ""))

/-- Src lines 702-717: the file name stem. -/
def save_name (s : SaveInputs) : String :=
  let n1 := strLower s.metric1_name
  let n2 := match s.metric2_name with
    | some m2 => n1 ++ "_" ++ strLower m2
    | none => n1
  let n3 := if s.thresh ≠ [] ∧ ¬ s.thresh.contains "" then
      n2 ++ "_" ++ strLower s.thresholds_save_phrase else n2
  let n4 := if s.interp_pts ≠ [] ∧ ¬ s.interp_pts.contains "" then
      n3 ++ "_" ++ strLower s.interp_pts_save_string else n3
  let n5 := n4 ++ "." ++ strLower s.var_savename
  let n6 := if s.level_savename ≠ "" then
      n5 ++ "_" ++ strLower s.level_savename else n5
  let n7 := n6 ++ "." ++ strLower (time_period_savename s)
  let n8 := n7 ++ "." ++ plot_info s
  let n9 := n8 ++ "." ++ strLower s.domain_save_string
  if s.save_header ≠ "" then s.save_header ++ "." ++ n9 else n9

/-- The persistence effects of src lines 716-735. -/
structure SaveEffects where
  save_subdir : String
  save_path : String
  dir_created_if_absent : Bool
  restart_copy_path : Option String
deriving Repr, DecidableEq

/-- Src lines 716-735: save_subdir joins save_dir, the lower-cased
plot_group and the lower-cased time period (lines 718-721); the
subdirectory is created if absent (lines 722-723); the figure is written
to save_subdir/save_name.png (lines 724-725); and when restart_dir is a
non-empty string the file is copied to the same relative location under
restart_dir (lines 726-735). -/
def savePlan (s : SaveInputs) : SaveEffects :=
  let tp := time_period_savename s
  let name := save_name s
  let sub := s.save_dir ++ "/" ++ strLower s.plot_group ++ "/" ++ strLower tp
  { save_subdir := sub
    save_path := sub ++ "/" ++ name ++ ".png"
    dir_created_if_absent := true
    restart_copy_path :=
      if s.restart_dir ≠ "" then
        some (s.restart_dir ++ "/" ++ strLower s.plot_group ++ "/" ++
          strLower tp ++ "/" ++ name ++ ".png")
      else none }

/-- The output path exactly as claim C7 words it: the time-period path
component is the start-end string for TEST and otherwise the eval_period
string itself (not lower-cased).  Kept beside `savePlan` to compare the
claim's wording with the source. -/
def claimedSavePathC7 (s : SaveInputs) : String :=
  s.save_dir ++ "/" ++ strLower s.plot_group ++ "/" ++ time_period_savename s ++
    "/" ++ save_name s ++ ".png"

/-- The metric1 plotting loop reads each requested model's series as the
pivot column named by that model, skipping the models absent from the
columns (src lines 339-348: `if str(model_list[m]) not in pivot_metric1:
continue` and `pivot_metric1[str(model_list[m])].values`). -/
def modelSeries (p : PivotTable) (ml : List String) :
    List (String × List (Option Rat)) :=
  ml.filterMap (fun m =>
    if p.columns.contains m then some (m, p.colVals m) else none)

/-- The pivot values are identical across all models at every date. -/
def allModelsEqual (tbl : List (List Rat)) : Bool :=
  tbl.all (fun row => row.all (fun c => decide (c = row.headD 0)))

/-! ### Concrete inputs used by the claim theorems. -/

/-- A single observation record that survives every filter of the chain
below (level 500, lead 24, width 0, threshold 1, hour 0). -/
def c1Row : Row :=
  { MODEL := "MODELA", FCST_LEV := "500", FCST_VAR := "HGT",
    FCST_THRESH_VALUE := 1, LEAD := 24, WIDTH := 0, date := 1, hour := 0,
    stat := 2 }

/-- Arguments under which `c1Row` survives the level, lead, width,
threshold and model filters as well as sample equalization. -/
def c1Args : Args :=
  { df := [c1Row], model_list := ["MODELA"], level := "500", flead := [24],
    thresh := [], metric1_name := "BCRMSE", metric2_name := some "BIAS",
    date_hours := [0, 6, 12, 18], date_type := "VALID",
    confidence_intervals := false, interp_pts := [],
    sample_equalization := true }

def c2Row : Row :=
  { MODEL := "MODELB", FCST_LEV := "850", FCST_VAR := "TMP",
    FCST_THRESH_VALUE := 5, LEAD := 12, WIDTH := 0, date := 3, hour := 6,
    stat := 1 }

def c2Args : Args :=
  { df := [c2Row], model_list := ["MODELB"], level := "850", flead := [12],
    thresh := [5], metric1_name := "RMSE", metric2_name := none,
    date_hours := [6], date_type := "VALID",
    confidence_intervals := false, interp_pts := [],
    sample_equalization := false }

/-- A record whose valid hour, 3, is not among the requested date_hours
[0, 6, 12, 18]. -/
def c3Row : Row :=
  { MODEL := "MODELC", FCST_LEV := "700", FCST_VAR := "RH",
    FCST_THRESH_VALUE := 0, LEAD := 6, WIDTH := 0, date := 2, hour := 3,
    stat := 4 }

def c3Args : Args :=
  { df := [c3Row], model_list := ["MODELC"], level := "700", flead := [6],
    thresh := [], metric1_name := "BIAS", metric2_name := none,
    date_hours := [0, 6, 12, 18], date_type := "VALID",
    confidence_intervals := false, interp_pts := [],
    sample_equalization := false }

def c4Row : Row :=
  { MODEL := "MODELD", FCST_LEV := "500", FCST_VAR := "HGT",
    FCST_THRESH_VALUE := 0, LEAD := 24, WIDTH := 0, date := 4, hour := 0,
    stat := 5 }

def c6Row : Row :=
  { MODEL := "MODELF", FCST_LEV := "925", FCST_VAR := "DPT",
    FCST_THRESH_VALUE := 0, LEAD := 48, WIDTH := 0, date := 7, hour := 12,
    stat := 6 }

def c6Args : Args :=
  { df := [c6Row], model_list := ["MODELF"], level := "925", flead := [48],
    thresh := [], metric1_name := "ME", metric2_name := none,
    date_hours := [12], date_type := "VALID",
    confidence_intervals := false, interp_pts := [],
    sample_equalization := false }

def c7In : SaveInputs :=
  { save_dir := "/out", restart_dir := "", save_header := "",
    plot_group := "Sfc_Upper", eval_period := "PAST90DAYS",
    date_start_savename := "20240101", date_end_savename := "20240331",
    date_type := "VALID", date_hours := [0, 12], frange_save_string := "f024",
    metric1_name := "BCRMSE", metric2_name := none, thresh := [],
    thresholds_save_phrase := "", interp_pts := [],
    interp_pts_save_string := "", var_savename := "hgt",
    level_savename := "500", domain_save_string := "conus" }

def c8Pm : PivotTable :=
  { index := [1, 2], columns := ["M1"],
    cells := [((1, "M1"), 3), ((2, "M1"), 4)] }

def c8Cil : PivotTable :=
  { index := [1], columns := ["M1"], cells := [((1, "M1"), 1)] }

def c8Ciu : PivotTable :=
  { index := [1], columns := ["M1"], cells := [((1, "M1"), 5)] }

def c9Args : Args :=
  { df := [], model_list := [], level := "500", flead := [], thresh := [],
    metric1_name := "RMSE", metric2_name := none, date_hours := [],
    date_type := "VALID", confidence_intervals := false, interp_pts := [],
    sample_equalization := false }

def c10Row : Row :=
  { MODEL := "MODELJ", FCST_LEV := "200", FCST_VAR := "UGRD",
    FCST_THRESH_VALUE := 0, LEAD := 36, WIDTH := 0, date := 9, hour := 18,
    stat := 3 }

def c10Args : Args :=
  { df := [c10Row], model_list := ["MODELJ"], level := "200", flead := [36],
    thresh := [], metric1_name := "FBAR", metric2_name := none,
    date_hours := [18], date_type := "VALID",
    confidence_intervals := false, interp_pts := [],
    sample_equalization := true }

/-- Position of a stage in a trace (length of the trace when absent). -/
def stageIdx (t : List Stage) (s : Stage) : Nat := t.findIdx (fun x => x == s)

/-- The stage traces a call of plot_time_series can leave: one per early
return and one per terminating branch of the chain. -/
def canonicalTraces : List (List Stage) :=
  [[],
   [.levelFilter],
   [.levelFilter, .leadFilter, .dateHoursPrune],
   [.levelFilter, .leadFilter, .dateHoursPrune, .widthFilter, .threshFilter,
    .modelFilter],
   [.levelFilter, .leadFilter, .dateHoursPrune, .widthFilter, .threshFilter,
    .modelFilter, .equalize],
   [.levelFilter, .leadFilter, .dateHoursPrune, .widthFilter, .threshFilter,
    .modelFilter, .equalize, .aggregate, .pivot],
   [.levelFilter, .leadFilter, .dateHoursPrune, .widthFilter, .threshFilter,
    .modelFilter, .aggregate, .pivot]]

/-! Helper equations: updating date_hours leaves every other argument and
every dataframe stage unchanged. -/
theorem update_dh_df (a : Args) (dh2 : List Nat) :
    ({ a with date_hours := dh2 } : Args).df = a.df := rfl

theorem update_dh_se (a : Args) (dh2 : List Nat) :
    ({ a with date_hours := dh2 } : Args).sample_equalization =
      a.sample_equalization := rfl

theorem update_dh_dt (a : Args) (dh2 : List Nat) :
    ({ a with date_hours := dh2 } : Args).date_type = a.date_type := rfl

theorem update_dh_afterLevel (a : Args) (dh2 : List Nat) :
    dfAfterLevel { a with date_hours := dh2 } = dfAfterLevel a := rfl

theorem update_dh_afterLead (a : Args) (dh2 : List Nat) :
    dfAfterLead { a with date_hours := dh2 } = dfAfterLead a := rfl

theorem update_dh_afterModels (a : Args) (dh2 : List Nat) :
    dfAfterModels { a with date_hours := dh2 } = dfAfterModels a := rfl

/-! Shared lemmas about the aggregation, pivoting and plotting fragments. -/

theorem run_aggregated_eq (a : Args)
    (eqf : DataFrame → List String → DataFrame × Bool) (d : DataFrame)
    (h : (plot_time_series a eqf).dfFinal = some d) :
    (plot_time_series a eqf).aggregated = some (process_stats d) := by
  unfold plot_time_series at h ⊢
  split_ifs at h ⊢ <;> simp_all [continueAgg]

theorem process_stats_keys (d : DataFrame) :
    (process_stats d).map Prod.fst = groupKeys d := by
  simp [process_stats, List.map_map, Function.comp_def]

theorem mem_groupKeys (d : DataFrame) (k : String × Nat) :
    k ∈ groupKeys d ↔ ∃ r ∈ d, (r.MODEL, r.date) = k := by
  simp [groupKeys, List.mem_dedup, List.mem_map]

theorem mem_process_stats (d : DataFrame) (k : String × Nat) (v : Rat)
    (h : (k, v) ∈ process_stats d) :
    (∃ r ∈ d, (r.MODEL, r.date) = k) ∧
    v = ratMean ((groupRows d k).map (fun r => r.stat)) := by
  simp only [process_stats, List.mem_map] at h
  obtain ⟨k2, hk2, he⟩ := h
  obtain ⟨h1, h2⟩ := Prod.mk.inj he
  subst h1
  subst h2
  exact ⟨(mem_groupKeys d _).mp hk2, rfl⟩

theorem find?_swapped (f : (String × Nat) → Rat) :
    ∀ (keys : List (String × Nat)) (k : String × Nat), k ∈ keys →
      (keys.map (fun k2 => ((k2.2, k2.1), f k2))).find?
          (fun c => c.1 == (k.2, k.1)) = some ((k.2, k.1), f k) := by
  intro keys
  induction keys with
  | nil => intro k hk; simp at hk
  | cons k2 ks ih =>
    intro k hk
    rw [List.map_cons]
    by_cases he : k2 = k
    · subst he
      exact List.find?_cons_of_pos _ (by simp)
    · rw [List.find?_cons_of_neg, ih k (by
        rcases List.mem_cons.mp hk with h | h
        · exact absurd h.symm he
        · exact h)]
      simp only [beq_iff_eq, Prod.mk.injEq]
      intro hcon
      exact he (Prod.ext hcon.2 hcon.1)

theorem pivot_cells_eq (d : DataFrame) :
    (get_pivot_tables (process_stats d)).cells =
      (groupKeys d).map (fun k =>
        ((k.2, k.1), ratMean ((groupRows d k).map (fun r => r.stat)))) := by
  simp [get_pivot_tables, process_stats, List.map_map, Function.comp_def]

theorem pivot_cell_of_mem (d : DataFrame) (m : String) (dt : Nat)
    (h : (m, dt) ∈ groupKeys d) :
    (get_pivot_tables (process_stats d)).cell dt m =
      some (ratMean ((groupRows d (m, dt)).map (fun r => r.stat))) := by
  unfold PivotTable.cell
  rw [pivot_cells_eq]
  rw [show ((dt, m) : Nat × String) = ((m, dt).2, (m, dt).1) from rfl]
  rw [find?_swapped _ _ _ h]
  rfl

theorem mem_pivot_columns (d : DataFrame) (m : String) :
    m ∈ (get_pivot_tables (process_stats d)).columns ↔
      ∃ r ∈ d, r.MODEL = m := by
  simp [get_pivot_tables, process_stats, groupKeys, List.mem_dedup,
    List.mem_map]

theorem mem_pivot_index (d : DataFrame) (dt : Nat) :
    dt ∈ (get_pivot_tables (process_stats d)).index ↔
      ∃ r ∈ d, r.date = dt := by
  simp [get_pivot_tables, process_stats, groupKeys, List.mem_dedup,
    List.mem_map]

theorem modelSeries_reads_columns (p : PivotTable) (ml : List String) :
    modelSeries p ml =
      (ml.filter (fun m => p.columns.contains m)).map
        (fun m => (m, p.colVals m)) := by
  induction ml with
  | nil => rfl
  | cons m ms ih =>
    by_cases hm : m ∈ p.columns <;>
      simp [modelSeries, List.filterMap_cons, List.filter_cons, hm] <;>
      simpa [modelSeries] using ih

theorem rat_div_eq_one (c u : Rat) : c / u = 1 ↔ (c = u ∧ u ≠ 0) := by
  by_cases hu : u = 0
  · simp [hu]
  · rw [div_eq_one_iff_eq hu]
    simp [hu]

theorem loopAux_after_reference (tbl : List (List Rat))
    (col : String → List Rat) :
    ∀ ms, metric1LoopAux true tbl col ms true = [] := by
  intro ms
  induction ms with
  | nil => rfl
  | cons m ms ih => simp [metric1LoopAux, ih]

theorem loopAux_per_model (tbl : List (List Rat)) (col : String → List Rat) :
    ∀ ms b, metric1LoopAux false tbl col ms b =
      ms.map (fun mm => LineCmd.modelLine mm (col mm)) := by
  intro ms
  induction ms with
  | nil => intro b; rfl
  | cons m ms ih => intro b; simp [metric1LoopAux, ih]

theorem flatMap_single {α β : Type} (f : α → β) (l : List α) :
    (l.flatMap fun x => [f x]) = l.map f := by
  induction l with
  | nil => rfl
  | cons x xs ih => simp [List.flatMap_cons, ih]

/-! ### Claim theorems -/

/-- C1.  The claim says a call whose dataframe survives the level, lead,
width, threshold and model filters and sample equalization completes the
pipeline and saves a .png under save_dir.  The code cannot: at src line
181 the local pivot_counts is passed to reindex_pivot_tables before its
first assignment (line 186), so the call raises UnboundLocalError.  The
run below survives every filter (its dataframe reaches the aggregation
point intact) and then raises instead of saving. -/
theorem c1_surviving_run_raises_unbound_pivot_counts :
    (plot_time_series c1Args equalize_samples).dfFinal = some [c1Row] ∧
    (plot_time_series c1Args equalize_samples).outcome =
      Outcome.raised (PyErr.unboundLocal "pivot_counts") := by decide

/-- C2 counterexample.  The claim says threshold processing is performed
before interpolation-width filtering.  In the run below both stages
execute, and the threshold stage does not come before the width stage:
the source filters by width at line 123 and processes thresholds at line
128. -/
theorem c2_counterexample :
    Stage.widthFilter ∈ (plot_time_series c2Args equalize_samples).trace ∧
    Stage.threshFilter ∈ (plot_time_series c2Args equalize_samples).trace ∧
    ¬ (stageIdx (plot_time_series c2Args equalize_samples).trace
         Stage.threshFilter <
       stageIdx (plot_time_series c2Args equalize_samples).trace
         Stage.widthFilter) := by decide

/-- C2 amended.  The filter chain runs level, then lead (with the
date-hours restriction), then interpolation width, then threshold, then
model availability, before sample equalization: every trace the pipeline
can leave is one of the canonical traces, and the width stage never
comes after the threshold stage. -/
theorem c2_amended_stage_order (a : Args)
    (eqf : DataFrame → List String → DataFrame × Bool) :
    (plot_time_series a eqf).trace ∈ canonicalTraces ∧
    stageIdx (plot_time_series a eqf).trace Stage.widthFilter ≤
      stageIdx (plot_time_series a eqf).trace Stage.threshFilter := by
  unfold plot_time_series
  split_ifs <;> first | decide | (simp only [continueAgg]; decide)

/-- C3 counterexample.  The claim says rows whose valid/init hour is not
listed in date_hours are removed before aggregation.  In the run below a
row with hour 3 reaches the aggregation point although 3 is not among
the requested date_hours [0, 6, 12, 18]: src lines 109-114 restrict
date_hours to the hours present in the dataframe and never drop rows. -/
theorem c3_counterexample :
    (plot_time_series c3Args equalize_samples).dfFinal = some [c3Row] ∧
    c3Row.hour = 3 ∧
    ¬ c3Args.date_hours.contains c3Row.hour := by decide

/-- C3 amended.  plot_time_series does not filter rows by valid/init
hour: replacing the date_hours argument never changes the dataframe that
reaches aggregation, nor the outcome; instead date_hours itself is
restricted to the hours occurring in the (lead-filtered) dataframe. -/
theorem c3_amended_hours_pruned_not_rows (a : Args)
    (eqf : DataFrame → List String → DataFrame × Bool)
    (dh2 dh : List Nat)
    (h : (plot_time_series a eqf).dateHoursFinal = some dh) :
    (plot_time_series { a with date_hours := dh2 } eqf).dfFinal =
      (plot_time_series a eqf).dfFinal ∧
    (plot_time_series { a with date_hours := dh2 } eqf).outcome =
      (plot_time_series a eqf).outcome ∧
    dh = dateHoursUsed a := by
  unfold plot_time_series at h ⊢
  simp only [update_dh_df, update_dh_se, update_dh_dt, update_dh_afterLevel,
    update_dh_afterLead, update_dh_afterModels] at h ⊢
  split_ifs at h ⊢ <;>
    simp only [continueAgg] at h ⊢ <;>
    simp_all

/-- C3 amended, witness: in the c3 run the pruned hour list is empty,
because hour 3 is the only hour present and it was not requested. -/
theorem c3_amended_witness :
    (plot_time_series { c3Args with date_hours := [5] } equalize_samples).dfFinal =
      (plot_time_series c3Args equalize_samples).dfFinal ∧
    (plot_time_series { c3Args with date_hours := [5] } equalize_samples).outcome =
      (plot_time_series c3Args equalize_samples).outcome ∧
    [] = dateHoursUsed c3Args :=
  c3_amended_hours_pruned_not_rows c3Args equalize_samples [5] [] (by decide)

/-- C4.  The pivot table built from the aggregated statistics has one
column per model present in the data (the columns are the distinct
models, without duplicates), its rows are indexed by the dates present,
each (date, model) cell holds that group's aggregated value, and the
plotting loop reads a model's series as the column named by that model,
skipping requested models that have no column. -/
theorem c4_pivot_shape_and_lookup (d : DataFrame) (m : String) (dt : Nat)
    (ml : List String) (h : ∃ r ∈ d, r.MODEL = m ∧ r.date = dt) :
    (get_pivot_tables (process_stats d)).columns.Nodup ∧
    m ∈ (get_pivot_tables (process_stats d)).columns ∧
    dt ∈ (get_pivot_tables (process_stats d)).index ∧
    (get_pivot_tables (process_stats d)).cell dt m =
      some (ratMean ((groupRows d (m, dt)).map (fun r => r.stat))) ∧
    modelSeries (get_pivot_tables (process_stats d)) ml =
      (ml.filter (fun mm =>
        (get_pivot_tables (process_stats d)).columns.contains mm)).map
        (fun mm => (mm, (get_pivot_tables (process_stats d)).colVals mm)) := by
  obtain ⟨r, hr, hm, hdt⟩ := h
  refine ⟨List.nodup_dedup _, ?_, ?_, ?_, modelSeries_reads_columns _ ml⟩
  · exact (mem_pivot_columns d m).mpr ⟨r, hr, hm⟩
  · exact (mem_pivot_index d dt).mpr ⟨r, hr, hdt⟩
  · exact pivot_cell_of_mem d m dt
      ((mem_groupKeys d (m, dt)).mpr ⟨r, hr, by simp [hm, hdt]⟩)

/-- C4 witness: the pivot built over one concrete record. -/
theorem c4_witness :
    (get_pivot_tables (process_stats [c4Row])).columns.Nodup ∧
    "MODELD" ∈ (get_pivot_tables (process_stats [c4Row])).columns ∧
    4 ∈ (get_pivot_tables (process_stats [c4Row])).index ∧
    (get_pivot_tables (process_stats [c4Row])).cell 4 "MODELD" =
      some (ratMean ((groupRows [c4Row] ("MODELD", 4)).map (fun r => r.stat))) ∧
    modelSeries (get_pivot_tables (process_stats [c4Row])) ["MODELD", "X"] =
      (["MODELD", "X"].filter (fun mm =>
        (get_pivot_tables (process_stats [c4Row])).columns.contains mm)).map
        (fun mm => (mm, (get_pivot_tables (process_stats [c4Row])).colVals mm)) :=
  c4_pivot_shape_and_lookup [c4Row] "MODELD" 4 ["MODELD", "X"]
    ⟨c4Row, by decide, by decide, by decide⟩

/-- C5 counterexample.  The claim says that when the OBAR values vary
from model to model the reference line is suppressed and one line is
plotted per model.  With one date and values 1, 2, 3 across three
models the values vary, yet the middle cell equals the across-model
mean 2, so the src line 271 check keeps the reference flag and the loop
plots the single reference line instead of per-model lines. -/
theorem c5_counterexample :
    allModelsEqual [[(1 : Rat), 2, 3]] = false ∧
    plotReference1 "OBAR" [[(1 : Rat), 2, 3]] = true ∧
    metric1LineCmds ["A", "B", "C"] true [[(1 : Rat), 2, 3]] (fun _ => []) =
      [LineCmd.refLine [2]] := by
  have hmean : rowMeanQ [(1 : Rat), 2, 3] = 2 := by
    unfold rowMeanQ
    norm_num
  refine ⟨by decide, ?_, ?_⟩
  · have h1 : decide (strUpper "OBAR" ∈ ref_metrics) = true := by decide
    have h2 : anyCellEqRowMean [[(1 : Rat), 2, 3]] = true := by
      simp only [anyCellEqRowMean, List.any_cons, List.any_nil, hmean]
      norm_num
    simp [plotReference1, h1, h2]
  · simp [metric1LineCmds, metric1LoopAux, referenceSeries, hmean,
      loopAux_after_reference]

/-- C5 amended.  The reference flag for metric1 is set exactly when the
metric upper-cases to OBAR and some cell equals its date's nonzero
across-model mean — so identical nonzero values across models keep it,
but so does any varying table in which one model's value hits the mean;
when the flag is set the loop draws the single across-model-mean
reference line once (nothing if no model survives), and when it is clear
the loop draws one line per surviving model. -/
theorem c5_amended_reference_detection (m1 : String) (tbl : List (List Rat))
    (models : List String) (col : String → List Rat) :
    (plotReference1 m1 tbl = true ↔
      (strUpper m1 ∈ ref_metrics ∧
       ∃ row ∈ tbl, ∃ c ∈ row, c = rowMeanQ row ∧ rowMeanQ row ≠ 0)) ∧
    metric1LineCmds models true tbl col =
      (if models.isEmpty then [] else [LineCmd.refLine (referenceSeries tbl)]) ∧
    metric1LineCmds models false tbl col =
      models.map (fun mm => LineCmd.modelLine mm (col mm)) := by
  refine ⟨?_, ?_, ?_⟩
  · simp [plotReference1, anyCellEqRowMean, List.any_eq_true,
      rat_div_eq_one, and_assoc]
  · cases models with
    | nil => rfl
    | cons m ms =>
      simp [metric1LineCmds, metric1LoopAux, loopAux_after_reference]
  · exact loopAux_per_model tbl col models _

/-- C6.  After the filter chain, the surviving rows are grouped by
(MODEL, date) — the group_by of src line 143 — and the aggregation
produces exactly one summary value per distinct (model, date) pair of
the surviving dataframe. -/
theorem c6_one_value_per_group (a : Args)
    (eqf : DataFrame → List String → DataFrame × Bool) (d : DataFrame)
    (k : String × Nat) (v : Rat) (m : String) (dt : Nat)
    (h1 : (plot_time_series a eqf).dfFinal = some d)
    (h2 : (k, v) ∈ process_stats d)
    (h3 : ∃ r ∈ d, r.MODEL = m ∧ r.date = dt) :
    (plot_time_series a eqf).aggregated = some (process_stats d) ∧
    ((process_stats d).map Prod.fst).Nodup ∧
    (m, dt) ∈ (process_stats d).map Prod.fst ∧
    (∃ r ∈ d, (r.MODEL, r.date) = k) ∧
    v = ratMean ((groupRows d k).map (fun r => r.stat)) := by
  obtain ⟨hex, hval⟩ := mem_process_stats d k v h2
  obtain ⟨r, hr, hm, hdt⟩ := h3
  refine ⟨run_aggregated_eq a eqf d h1, ?_, ?_, hex, hval⟩
  · rw [process_stats_keys]
    exact List.nodup_dedup _
  · rw [process_stats_keys]
    exact (mem_groupKeys d (m, dt)).mpr ⟨r, hr, by simp [hm, hdt]⟩

/-- C6 witness: one concrete record reaching aggregation. -/
theorem c6_witness :
    (plot_time_series c6Args equalize_samples).aggregated =
      some (process_stats [c6Row]) ∧
    ((process_stats [c6Row]).map Prod.fst).Nodup ∧
    ("MODELF", 7) ∈ (process_stats [c6Row]).map Prod.fst ∧
    (∃ r ∈ [c6Row], (r.MODEL, r.date) = ("MODELF", 7)) ∧
    ratMean ((groupRows [c6Row] ("MODELF", 7)).map (fun r => r.stat)) =
      ratMean ((groupRows [c6Row] ("MODELF", 7)).map (fun r => r.stat)) :=
  c6_one_value_per_group c6Args equalize_samples [c6Row] ("MODELF", 7)
    (ratMean ((groupRows [c6Row] ("MODELF", 7)).map (fun r => r.stat)))
    "MODELF" 7 (by decide) (by exact List.Mem.head _)
    ⟨c6Row, by decide, by decide, by decide⟩

/-- C7 counterexample.  The claim says the time-period path component is
the eval_period string when eval_period is not TEST; the code lower-cases
it (src lines 718-721), so for eval_period PAST90DAYS the actual path
(.../past90days/...) differs from the claimed one (.../PAST90DAYS/...). -/
theorem c7_counterexample :
    c7In.eval_period = "PAST90DAYS" ∧
    (savePlan c7In).save_path ≠ claimedSavePathC7 c7In := by decide

/-- C7 amended.  The image path is
save_dir/<plot_group lower-cased>/<time_period lower-cased>/<save_name>.png,
where the time period is start-end for TEST (case-insensitively) and the
eval_period string otherwise; the save subdirectory is created if
absent, and the file is additionally copied under restart_dir exactly
when restart_dir is non-empty. -/
theorem c7_amended_save_naming (s : SaveInputs) :
    (savePlan s).save_path =
      s.save_dir ++ "/" ++ strLower s.plot_group ++ "/" ++
        strLower (if strUpper s.eval_period = "TEST" then
            s.date_start_savename ++ "-" ++ s.date_end_savename
          else s.eval_period) ++ "/" ++ save_name s ++ ".png" ∧
    (savePlan s).save_subdir =
      s.save_dir ++ "/" ++ strLower s.plot_group ++ "/" ++
        strLower (time_period_savename s) ∧
    (savePlan s).dir_created_if_absent = true ∧
    ((savePlan s).restart_copy_path =
      if s.restart_dir ≠ "" then
        some (s.restart_dir ++ "/" ++ strLower s.plot_group ++ "/" ++
          strLower (time_period_savename s) ++ "/" ++ save_name s ++ ".png")
      else none) := by
  refine ⟨?_, rfl, rfl, rfl⟩
  unfold savePlan time_period_savename
  split_ifs <;> rfl

/-- C8.  Error bars: with confidence intervals on, every present model
gets an error-bar command (so error bars are drawn), and the x-values of
every drawn command lie in the date indices common to the metric pivot
and both confidence-bound pivots; with confidence intervals off, the
commands are exactly one plain line per present model at the metric
pivot's own index — no error bars. -/
theorem c8_errorbars_iff_ci (ml : List String) (pm cil ciu : PivotTable)
    (cmd : DrawCmd) (d : Nat)
    (hm : ml.filter (fun m => pm.columns.contains m) ≠ [])
    (hc : cmd ∈ drawMetric1 true ml pm cil ciu)
    (hd : d ∈ cmd.xs) :
    (∃ m xs, DrawCmd.errbar m xs ∈ drawMetric1 true ml pm cil ciu) ∧
    drawMetric1 false ml pm cil ciu =
      (ml.filter (fun m => pm.columns.contains m)).map
        (fun m => DrawCmd.line m pm.index) ∧
    (d ∈ pm.index ∧ d ∈ cil.index ∧ d ∈ ciu.index) := by
  refine ⟨?_, ?_, ?_⟩
  · obtain ⟨m0, hm0⟩ := List.exists_mem_of_ne_nil _ hm
    refine ⟨m0, (restrictIndex pm (commonKeep pm cil ciu)).index, ?_⟩
    simp only [drawMetric1, restrictIndex]
    rw [List.mem_flatMap]
    exact ⟨m0, by simpa [restrictIndex] using hm0, by simp⟩
  · simp [drawMetric1, flatMap_single]
  · simp only [drawMetric1, List.mem_flatMap, if_pos] at hc
    obtain ⟨m, hmem, hcmd⟩ := hc
    have hxs : cmd.xs = (restrictIndex pm (commonKeep pm cil ciu)).index := by
      rcases List.mem_cons.mp hcmd with h | h
      · subst h; rfl
      · simp only [if_pos, List.mem_singleton] at h
        subst h; rfl
    rw [hxs] at hd
    simp only [restrictIndex, List.mem_filter, commonKeep, Bool.and_eq_true,
      decide_eq_true_eq] at hd
    exact ⟨hd.1, hd.2.1.2, hd.2.2⟩

/-- C8 witness: one model, metric index [1, 2], both CI indexes [1]. -/
theorem c8_witness :
    (∃ m xs, DrawCmd.errbar m xs ∈ drawMetric1 true ["M1"] c8Pm c8Cil c8Ciu) ∧
    drawMetric1 false ["M1"] c8Pm c8Cil c8Ciu =
      (["M1"].filter (fun m => c8Pm.columns.contains m)).map
        (fun m => DrawCmd.line m c8Pm.index) ∧
    (1 ∈ c8Pm.index ∧ 1 ∈ c8Cil.index ∧ 1 ∈ c8Ciu.index) :=
  c8_errorbars_iff_ci ["M1"] c8Pm c8Cil c8Ciu (DrawCmd.line "M1" [1]) 1
    (by decide) (by decide) (by decide)

/-- C9.  When the dataframe is empty on entry, or empties after the
level filter, after model pruning, or after sample equalization, the
call logs the empty-dataframe warning and returns None, saving nothing. -/
theorem c9_empty_warn_and_return (a : Args)
    (eqf : DataFrame → List String → DataFrame × Bool) (p : String)
    (h : a.df = [] ∨ dfAfterLevel a = [] ∨ dfAfterModels a = [] ∨
         (a.sample_equalization = true ∧
          (eqf (dfAfterModels a) ["MODEL", strUpper a.date_type]).1 = [])) :
    (plot_time_series a eqf).outcome = Outcome.returnedNone ∧
    emptyDfWarning ∈ (plot_time_series a eqf).warnings ∧
    (plot_time_series a eqf).outcome ≠ Outcome.saved p := by
  unfold plot_time_series
  split_ifs <;>
    first
      | exact ⟨rfl, by simp, by simp⟩
      | (exfalso; rcases h with h | h | h | ⟨hse, heq⟩ <;> simp_all)

/-- C9 witness: the empty dataframe on entry. -/
theorem c9_witness :
    (plot_time_series c9Args (fun d _ => (d, true))).outcome =
      Outcome.returnedNone ∧
    emptyDfWarning ∈ (plot_time_series c9Args (fun d _ => (d, true))).warnings ∧
    (plot_time_series c9Args (fun d _ => (d, true))).outcome ≠
      Outcome.saved "plot.png" :=
  c9_empty_warn_and_return c9Args (fun d _ => (d, true)) "plot.png"
    (Or.inl rfl)

/-- C10.  When sample equalization reports failure but leaves the
dataframe non-empty (and the run reached the equalization step), the
call does not return at that step: the dataframe proceeds to the
aggregation stage with the sample_equalization flag cleared, and with
the flag cleared the sample-count annotation fragment emits no per-date
counts. -/
theorem c10_equalize_failure_continues (a : Args)
    (eqf : DataFrame → List String → DataFrame × Bool) (df2 : DataFrame)
    (counts : List Rat) (xvals : List Nat)
    (hse : a.sample_equalization = true)
    (heq : eqf (dfAfterModels a) ["MODEL", strUpper a.date_type] = (df2, false))
    (hne : df2 ≠ [])
    (hreach : a.df ≠ [] ∧ dfAfterLevel a ≠ [] ∧ dfAfterLead a ≠ [] ∧
      dfAfterModels a ≠ []) :
    (plot_time_series a eqf).seFinal = some false ∧
    (plot_time_series a eqf).dfFinal = some df2 ∧
    Stage.aggregate ∈ (plot_time_series a eqf).trace ∧
    sampleCountLabels false counts xvals = [] := by
  obtain ⟨hd, hl, hld, hm⟩ := hreach
  unfold plot_time_series
  split_ifs <;> simp_all [continueAgg, sampleCountLabels]

/-- C10 witness: an equalizer that reports failure and returns the
dataframe unchanged. -/
theorem c10_witness :
    (plot_time_series c10Args (fun d _ => (d, false))).seFinal = some false ∧
    (plot_time_series c10Args (fun d _ => (d, false))).dfFinal =
      some (dfAfterModels c10Args) ∧
    Stage.aggregate ∈ (plot_time_series c10Args (fun d _ => (d, false))).trace ∧
    sampleCountLabels false [1] [9] = [] :=
  c10_equalize_failure_continues c10Args (fun d _ => (d, false))
    (dfAfterModels c10Args) [1] [9] rfl rfl (by decide)
    ⟨by decide, by decide, by decide, by decide⟩

end TS
